import Mathlib

/-!
Verification of the MH-Z19C sensor protocol core (`src/main.go`).

The core consists of three Go functions:
  * `buildCommand` — builds the fixed 9-byte read-concentration command frame;
  * `checksum` — the one's-complement-style checksum over bytes 1..7 of a frame;
  * `read` — one write/wait/read exchange over a duplex transport, validating
    and decoding the 9-byte response.

Shallow embedding conventions:
  * Go `byte` values are `Nat` (with explicit `% 256` where Go converts);
    Go's `byte(x)` conversion of an `int` keeps the low 8 bits, i.e. the
    mathematical value `x mod 256`, modelled by `goByte` on `Int`.
  * Go slices of bytes are `List Nat`; Go indexing `s[i]` on the 9-byte
    buffers becomes `List.getD s i 0` (the buffers always have length 9, so
    the default is never consulted).
  * The opaque `io.ReadWriter` is modelled by `Transport`: the outcome of its
    `Write` call (a byte count and an optional error) and of its `Read` call
    (the bytes it places in the buffer and an optional error). Go errors are
    opaque values; only their presence matters, so they are `Option Unit`.
  * Go's multiple return `(Result, error)` becomes `Result × Option ReadError`;
    the zero value `Result{}` is `{ Co2Concentration := 0 }`.
  * `Co2Concentration` is `float32` in Go, computed as `float32(high*256+low)`
    with `high, low ≤ 255`; every such integer is below `2^24` and therefore
    exactly representable in binary32, so `Nat` is an exact carrier for it.
  * `time.Sleep(150ms)` has no observable effect on the state modelled here;
    it is recorded as a step in the instrumented variant `readEvents`.
-/

namespace MHZ19C

/-- Go's `byte(x)` conversion applied to an `int` expression: the value is
reduced modulo 256 to the range 0..255 (low 8 bits, two's complement). -/
def goByte (x : Int) : Nat := (x % 256).toNat

/-- `const cmdSize = 9` from the source. -/
def cmdSize : Nat := 9

/-- `buildCommand` from the source: allocates a zeroed 9-byte frame, writes
the start marker 0xFF, address 0x01, opcode 0x86, zeroes bytes 3..7, sums
bytes 1..7 into an unbounded integer, and stores `byte(0xFF - sum + 1)` at
index 8. -/
def buildCommand : List Nat :=
  let cmd := List.replicate cmdSize 0
  let cmd := cmd.set 0 0xFF
  let cmd := cmd.set 1 0x01
  let cmd := cmd.set 2 0x86
  let cmd := (List.range' 3 5).foldl (fun c i => c.set i 0) cmd
  let sum : Int := (List.range' 1 7).foldl (fun s i => s + Int.ofNat (cmd.getD i 0)) 0
  cmd.set 8 (goByte (0xFF - sum + 1))

/-- `checksum` from the source: sums bytes 1..7 of the frame into an
unbounded integer `sum` and returns `byte(0xFF - sum + 1)`. -/
def checksum (response : List Nat) : Nat :=
  let sum : Int := (List.range' 1 7).foldl (fun s i => s + Int.ofNat (response.getD i 0)) 0
  goByte (0xFF - sum + 1)

/-- The `Result` struct from the source. The Go field is `float32`; the
values actually stored are integers `high*256+low ≤ 65535 < 2^24`, all
exactly representable in binary32, so `Nat` carries them exactly. -/
structure Result where
  Co2Concentration : Nat
  deriving DecidableEq, Repr

/-- The classified errors `read` can return. In Go they are `fmt.Errorf`
values; each constructor corresponds to one `Errorf` site and carries the
same diagnostic data the format string interpolates (the opaque wrapped
transport errors carry nothing). -/
inductive ReadError where
  | writeFailure : ReadError
  | shortWrite (sent expected : Nat) : ReadError
  | readFailure : ReadError
  | shortResponse (got expected : Nat) : ReadError
  | invalidHeader (b0 b1 : Nat) : ReadError
  | checksumMismatch (b : Nat) : ReadError
  deriving DecidableEq, Repr

/-- Model of the `io.ReadWriter` transport handle: what its `Write` call
returns (byte count `writeN`, optional error `writeErr`) and what its `Read`
call does (places `readData` at the front of the supplied buffer, optional
error `readErr`). Go errors are opaque, hence `Option Unit`. -/
structure Transport where
  writeN : Nat
  writeErr : Option Unit
  readData : List Nat
  readErr : Option Unit

/-- Semantics of `io.Reader.Read(buf)`: up to `buf.length` bytes of the
delivered data overwrite the front of the buffer; the rest of the buffer is
untouched. -/
def fillBuffer (buf data : List Nat) : List Nat :=
  data.take buf.length ++ buf.drop (data.take buf.length).length

/-- `read` from the source, step by step:
zero-allocate a 9-byte response buffer; `dev.Write(cmd)` — fail on error,
fail if the reported count differs from `len(cmd)`; sleep 150 ms;
`dev.Read(response)` — the returned byte count is discarded (`_`), fail on
error; fail if `len(response) < cmdSize` (note: `len` of the buffer, which
is always 9); validate the header bytes; recompute the checksum and compare
with byte 8; decode `high*256+low`. Errors return the zero `Result`. -/
def read (dev : Transport) (cmd : List Nat) : Result × Option ReadError :=
  let response := List.replicate cmdSize 0
  match dev.writeErr with
  | some _ => ({ Co2Concentration := 0 }, some ReadError.writeFailure)
  | none =>
    if dev.writeN ≠ cmd.length then
      ({ Co2Concentration := 0 }, some (ReadError.shortWrite dev.writeN cmd.length))
    else
      match dev.readErr with
      | some _ => ({ Co2Concentration := 0 }, some ReadError.readFailure)
      | none =>
        let response := fillBuffer response dev.readData
        if response.length < cmdSize then
          ({ Co2Concentration := 0 }, some (ReadError.shortResponse response.length cmdSize))
        else if response.getD 0 0 ≠ 0xFF ∨ response.getD 1 0 ≠ 0x86 then
          ({ Co2Concentration := 0 },
            some (ReadError.invalidHeader (response.getD 0 0) (response.getD 1 0)))
        else if response.getD 8 0 ≠ checksum response then
          ({ Co2Concentration := 0 }, some (ReadError.checksumMismatch (response.getD 8 0)))
        else
          let high := response.getD 2 0
          let low := response.getD 3 0
          ({ Co2Concentration := high * 256 + low }, none)

/-- The observable transport interactions of one exchange, in order. -/
inductive Step where
  | write : Step
  | wait : Step
  | readStep : Step
  deriving DecidableEq, Repr

/-- `read` instrumented with the sequence of transport interactions it
performs, mirroring the source's control flow: the write happens first; only
if it succeeds completely do the 150 ms wait and then the read call happen;
validation performs no further transport interaction. -/
def readEvents (dev : Transport) (cmd : List Nat) :
    List Step × (Result × Option ReadError) :=
  let response := List.replicate cmdSize 0
  match dev.writeErr with
  | some _ => ([Step.write], ({ Co2Concentration := 0 }, some ReadError.writeFailure))
  | none =>
    if dev.writeN ≠ cmd.length then
      ([Step.write],
        ({ Co2Concentration := 0 }, some (ReadError.shortWrite dev.writeN cmd.length)))
    else
      match dev.readErr with
      | some _ =>
        ([Step.write, Step.wait, Step.readStep],
          ({ Co2Concentration := 0 }, some ReadError.readFailure))
      | none =>
        let response := fillBuffer response dev.readData
        ([Step.write, Step.wait, Step.readStep],
          if response.length < cmdSize then
            ({ Co2Concentration := 0 }, some (ReadError.shortResponse response.length cmdSize))
          else if response.getD 0 0 ≠ 0xFF ∨ response.getD 1 0 ≠ 0x86 then
            ({ Co2Concentration := 0 },
              some (ReadError.invalidHeader (response.getD 0 0) (response.getD 1 0)))
          else if response.getD 8 0 ≠ checksum response then
            ({ Co2Concentration := 0 }, some (ReadError.checksumMismatch (response.getD 8 0)))
          else
            ({ Co2Concentration := (response.getD 2 0) * 256 + (response.getD 3 0) }, none))

/-- The instrumented exchange computes the same result as `read`. -/
theorem readEvents_result (dev : Transport) (cmd : List Nat) :
    (readEvents dev cmd).2 = read dev cmd := by
  unfold readEvents read
  rcases dev with ⟨wn, we, rd, re⟩
  cases we <;> cases re <;> simp <;> split <;> simp

/-- The concrete value of the command frame. -/
theorem buildCommand_eq :
    buildCommand = [0xFF, 0x01, 0x86, 0x00, 0x00, 0x00, 0x00, 0x00, 0x79] := by
  decide

/-- Reading a full 9-byte response into the zero-initialised 9-byte buffer
replaces it entirely. -/
theorem fillBuffer_full (r : List Nat) (h : r.length = 9) :
    fillBuffer (List.replicate cmdSize 0) r = r := by
  match r, h with
  | [a, b, c, d, e, f, g, h, i], _ => rfl

/-- The checksum formula exactly as the spec words it: `0xFF` minus the sum
of bytes 1..7 (taken as a slice, accumulated as an unbounded integer) plus
one, reduced modulo 256 and truncated to a single byte. Stated from the
spec's words to compare against the source's indexed-loop `checksum`. -/
def checksumSpec (r : List Nat) : Nat :=
  (((0xFF : Int) - (((r.drop 1).take 7).map Int.ofNat).sum + 1) % 256).toNat

/-- Claim C2: for every 9-byte frame, the source's `checksum` computes
`(0xFF - (sum of bytes 1..7) + 1) mod 256`, with the sum accumulated as an
unbounded integer and the final value truncated to a single byte; the same
function is used by `buildCommand` (construction) and `read` (validation). -/
theorem C2_checksum_formula (r : List Nat) (hlen : r.length = 9) :
    checksum r = checksumSpec r := by
  match r, hlen with
  | [a, b, c, d, e, f, g, h, i], _ =>
    simp [checksum, checksumSpec, goByte, List.range']
    omega

/-- Witness for C2 at a concrete 9-byte frame. -/
theorem C2_checksum_formula_witness :
    ([0xFF, 0x86, 0x03, 0xE8, 0, 0, 0, 0, 0x8F] : List Nat).length = 9 ∧
    checksum [0xFF, 0x86, 0x03, 0xE8, 0, 0, 0, 0, 0x8F] =
      checksumSpec [0xFF, 0x86, 0x03, 0xE8, 0, 0, 0, 0, 0x8F] :=
  ⟨by decide, C2_checksum_formula [0xFF, 0x86, 0x03, 0xE8, 0, 0, 0, 0, 0x8F] (by decide)⟩

/-- Claim C4: the frame produced by `buildCommand` validates under the shared
checksum algorithm: `checksum buildCommand = buildCommand[8]` (round-trip law
between construction and validation). -/
theorem C4_roundtrip : checksum buildCommand = buildCommand.getD 8 0 := by decide

/-- Claim C8: `buildCommand` takes no input and in this pure embedding is a
constant, so any two calls return byte-identical frames and no call can fail;
the frame has byte 0 = 0xFF, byte 1 = 0x01, byte 2 = 0x86, bytes 3..7 = 0x00,
and byte 8 equal to the checksum over bytes 1..7. -/
theorem C8_buildCommand_value :
    buildCommand.length = 9 ∧
    buildCommand.take 8 = [0xFF, 0x01, 0x86, 0x00, 0x00, 0x00, 0x00, 0x00] ∧
    buildCommand.getD 8 0 = checksum buildCommand := by decide

/-- Claim C9: `checksum` depends only on bytes 1..7 of its input: any two
9-byte frames that agree at indices 1..7 have the same checksum, so in
particular changing byte 0 or byte 8 never changes the computed checksum and
validation compares byte 8 against a value independent of byte 8 itself. -/
theorem C9_checksum_middle_bytes (r s : List Nat)
    (hr : r.length = 9) (hs : s.length = 9)
    (h : ∀ i ∈ List.range' 1 7, r.getD i 0 = s.getD i 0) :
    checksum r = checksum s := by
  match r, s, hr, hs, h with
  | [a0, a1, a2, a3, a4, a5, a6, a7, a8], [b0, b1, b2, b3, b4, b5, b6, b7, b8],
      _, _, h =>
    have e1 : a1 = b1 := h 1 (by decide)
    have e2 : a2 = b2 := h 2 (by decide)
    have e3 : a3 = b3 := h 3 (by decide)
    have e4 : a4 = b4 := h 4 (by decide)
    have e5 : a5 = b5 := h 5 (by decide)
    have e6 : a6 = b6 := h 6 (by decide)
    have e7 : a7 = b7 := h 7 (by decide)
    subst e1 e2 e3 e4 e5 e6 e7
    rfl

/-- Witness for C9: two frames differing at bytes 0 and 8 only. -/
theorem C9_checksum_middle_bytes_witness :
    ([0x00, 1, 2, 3, 4, 5, 6, 7, 0xAA] : List Nat).length = 9 ∧
    ([0xFF, 1, 2, 3, 4, 5, 6, 7, 0x00] : List Nat).length = 9 ∧
    checksum [0x00, 1, 2, 3, 4, 5, 6, 7, 0xAA] =
      checksum [0xFF, 1, 2, 3, 4, 5, 6, 7, 0x00] :=
  ⟨by decide, by decide,
    C9_checksum_middle_bytes [0x00, 1, 2, 3, 4, 5, 6, 7, 0xAA]
      [0xFF, 1, 2, 3, 4, 5, 6, 7, 0x00] (by decide) (by decide) (by decide)⟩

/-- Claim C1 (code behaviour at the failing input): the source discards the
byte count returned by `dev.Read` and guards with `len(response) < cmdSize`,
where `response` is the buffer of length 9, so the short-response branch is
unreachable. A transport whose read succeeds but fills only 3 of the 9 bytes
with 0xFF 0x86 0x7A leaves the rest of the buffer zeroed; the header check
passes, the checksum over 0x86+0x7A = 0x100 evaluates to byte 0 matching the
zeroed byte 8, and `read` returns a decoded measurement 0x7A*256 = 31232 with
no error instead of the ShortResponse error. -/
theorem C1_short_read_decodes :
    read ⟨9, none, [0xFF, 0x86, 0x7A], none⟩ buildCommand =
      ({ Co2Concentration := 31232 }, none) := by decide

/-- Claim C5: a write that reports fewer than 9 bytes written without error
makes the exchange stop with ShortWrite right after the write step: the event
trace is just the write, so the wait and the read call never happen, and the
outcome does not depend on what the transport would have delivered on read. -/
theorem C5_short_write_stops_before_read (wn : Nat) (hwn : wn < 9)
    (rdata : List Nat) (rerr : Option Unit) :
    readEvents ⟨wn, none, rdata, rerr⟩ buildCommand =
      ([Step.write],
        ({ Co2Concentration := 0 }, some (ReadError.shortWrite wn 9))) := by
  simp [readEvents, buildCommand_eq, Nat.ne_of_lt hwn]

/-- Witness for C5: 5 of 9 bytes written, a valid response waiting unread. -/
theorem C5_short_write_stops_before_read_witness :
    5 < 9 ∧
    readEvents ⟨5, none, [0xFF, 0x86, 0x03, 0xE8, 0, 0, 0, 0, 0x8F], none⟩
        buildCommand =
      ([Step.write],
        ({ Co2Concentration := 0 }, some (ReadError.shortWrite 5 9))) :=
  ⟨by decide,
    C5_short_write_stops_before_read 5 (by decide)
      [0xFF, 0x86, 0x03, 0xE8, 0, 0, 0, 0, 0x8F] none⟩

/-- Claim C3: for every 9-byte response with header 0xFF, 0x86 and byte 8
equal to the checksum of bytes 1..7, the exchange succeeds and returns the
measurement `response[2]*256 + response[3]` exactly (the Go `float32`
conversion is exact for these integers, all below 2^24). -/
theorem C3_valid_response_decodes (r : List Nat) (hlen : r.length = 9)
    (h0 : r.getD 0 0 = 0xFF) (h1 : r.getD 1 0 = 0x86)
    (h8 : r.getD 8 0 = checksum r) :
    read ⟨9, none, r, none⟩ buildCommand =
      ({ Co2Concentration := r.getD 2 0 * 256 + r.getD 3 0 }, none) := by
  have hb : buildCommand.length = 9 := by decide
  have hc : ¬ (9 < cmdSize) := by decide
  have hfill := fillBuffer_full r hlen
  match r, h0, h1, h8, hfill with
  | [a0, a1, a2, a3, a4, a5, a6, a7, a8], h0, h1, h8, hfill =>
    have h0' : a0 = 0xFF := h0
    have h1' : a1 = 0x86 := h1
    subst h0' h1'
    have h8' : checksum [0xFF, 0x86, a2, a3, a4, a5, a6, a7, a8] = a8 :=
      Eq.symm h8
    simp [read, hb, hc, hfill, h8']

/-- Witness for C3: the spec's example frame decodes to exactly 1000 ppm. -/
theorem C3_valid_response_decodes_witness :
    read ⟨9, none, [0xFF, 0x86, 0x03, 0xE8, 0, 0, 0, 0, 0x8F], none⟩
        buildCommand =
      ({ Co2Concentration := 1000 }, none) := by
  have h := C3_valid_response_decodes [0xFF, 0x86, 0x03, 0xE8, 0, 0, 0, 0, 0x8F]
    (by decide) (by decide) (by decide) (by decide)
  simpa using h

/-- Claim C6: every 9-byte response whose byte 0 is not 0xFF or whose byte 1
is not 0x86 makes the exchange fail with InvalidHeader carrying both observed
header bytes; no measurement is decoded. -/
theorem C6_invalid_header (r : List Nat) (hlen : r.length = 9)
    (hhdr : r.getD 0 0 ≠ 0xFF ∨ r.getD 1 0 ≠ 0x86) :
    read ⟨9, none, r, none⟩ buildCommand =
      ({ Co2Concentration := 0 },
        some (ReadError.invalidHeader (r.getD 0 0) (r.getD 1 0))) := by
  have hb : buildCommand.length = 9 := by decide
  have hc : ¬ (9 < cmdSize) := by decide
  have hfill := fillBuffer_full r hlen
  match r, hhdr, hfill with
  | [a0, a1, a2, a3, a4, a5, a6, a7, a8], hhdr, hfill =>
    have hhdr' : a0 ≠ 0xFF ∨ a1 ≠ 0x86 := hhdr
    simp [read, hb, hc, hfill, hhdr']

/-- Witness for C6: a response with byte 0 = 0x00 yields InvalidHeader. -/
theorem C6_invalid_header_witness :
    read ⟨9, none, [0x00, 0x86, 0x03, 0xE8, 0, 0, 0, 0, 0x8F], none⟩
        buildCommand =
      ({ Co2Concentration := 0 }, some (ReadError.invalidHeader 0x00 0x86)) := by
  have h := C6_invalid_header [0x00, 0x86, 0x03, 0xE8, 0, 0, 0, 0, 0x8F]
    (by decide) (Or.inl (by decide))
  simpa using h

/-- Claim C7: every 9-byte response with correct header whose byte 8 differs
from the checksum recomputed over bytes 1..7 makes the exchange fail with
ChecksumMismatch carrying the observed checksum byte; no measurement is
decoded. -/
theorem C7_checksum_mismatch (r : List Nat) (hlen : r.length = 9)
    (h0 : r.getD 0 0 = 0xFF) (h1 : r.getD 1 0 = 0x86)
    (h8 : r.getD 8 0 ≠ checksum r) :
    read ⟨9, none, r, none⟩ buildCommand =
      ({ Co2Concentration := 0 },
        some (ReadError.checksumMismatch (r.getD 8 0))) := by
  have hb : buildCommand.length = 9 := by decide
  have hc : ¬ (9 < cmdSize) := by decide
  have hfill := fillBuffer_full r hlen
  match r, h0, h1, h8, hfill with
  | [a0, a1, a2, a3, a4, a5, a6, a7, a8], h0, h1, h8, hfill =>
    have h0' : a0 = 0xFF := h0
    have h1' : a1 = 0x86 := h1
    subst h0' h1'
    have h8' : ¬ (a8 = checksum [0xFF, 0x86, a2, a3, a4, a5, a6, a7, a8]) := h8
    simp [read, hb, hc, hfill, h8']

/-- Witness for C7: the correct checksum is 0x8F; 0x90 is off by one. -/
theorem C7_checksum_mismatch_witness :
    read ⟨9, none, [0xFF, 0x86, 0x03, 0xE8, 0, 0, 0, 0, 0x90], none⟩
        buildCommand =
      ({ Co2Concentration := 0 }, some (ReadError.checksumMismatch 0x90)) := by
  have h := C7_checksum_mismatch [0xFF, 0x86, 0x03, 0xE8, 0, 0, 0, 0, 0x90]
    (by decide) (by decide) (by decide) (by decide)
  simpa using h

/-- On every path, `read` either returns the zero `Result` or no error. -/
theorem read_zero_or_ok (dev : Transport) (cmd : List Nat) :
    (read dev cmd).1 = { Co2Concentration := 0 } ∨ (read dev cmd).2 = none := by
  unfold read
  rcases dev with ⟨wn, we, rd, re⟩
  cases we <;> cases re <;> simp <;> split_ifs <;> simp

/-- Claim C10: whenever `read` returns an error — any of the six classified
errors — the accompanying `Result` is the zero value `Result{}` with
`Co2Concentration = 0`; no partially decoded measurement is exposed
alongside an error. -/
theorem C10_error_returns_zero_result (dev : Transport) (cmd : List Nat)
    (e : ReadError) (h : (read dev cmd).2 = some e) :
    (read dev cmd).1 = { Co2Concentration := 0 } := by
  rcases read_zero_or_ok dev cmd with hz | hz
  · exact hz
  · rw [hz] at h
    cases h

/-- Witness for C10: a transport whose write call fails. -/
theorem C10_error_returns_zero_result_witness :
    (read ⟨0, some (), [], none⟩ buildCommand).1 = { Co2Concentration := 0 } :=
  C10_error_returns_zero_result ⟨0, some (), [], none⟩ buildCommand
    ReadError.writeFailure (by decide)

end MHZ19C
